import Mathlib

/-!
Shallow embedding of the inbound-notification webhook (`functions/notify.js`):
request authentication, payload normalization, keyword scoring, dedupe-key
construction, dedupe test-and-set against an external TTL store, and delivery
with one retry on transient failure.

Text is modelled as `List Nat` (Unicode code points); JavaScript values that may
be `undefined`/`null` are modelled as `Option`; the external Twilio Sync store
and the external message transport are parameters supplying the outcome of each
external call.
-/

namespace NotifyWebhook

/-- Text: a string as a list of Unicode code points. -/
abbrev Str := List Nat

/-- Converts a Lean string literal to the code-point model. -/
def sLit (s : String) : Str := s.data.map Char.toNat

/-- Whitespace test matching the characters removed by JavaScript trim
(ASCII whitespace: tab, LF, VT, FF, CR, space). -/
def isWS (c : Nat) : Bool := c == 32 || c == 9 || c == 10 || c == 11 || c == 12 || c == 13

/-- JavaScript `String.prototype.trim`: strip leading and trailing whitespace. -/
def trimStr (s : Str) : Str :=
  (((s.dropWhile isWS).reverse).dropWhile isWS).reverse

/-- JavaScript `toLowerCase` on one code point (ASCII letters). -/
def lowerChar (c : Nat) : Nat := if 65 ≤ c ∧ c ≤ 90 then c + 32 else c

/-- JavaScript `toLowerCase` on a string. -/
def lowerStr (s : Str) : Str := s.map lowerChar

/-- Source `cleanString(value)`: `null`/`undefined` become the empty string,
everything else is coerced to a string and trimmed. -/
def cleanString (v : Option Str) : Str :=
  match v with
  | none => []
  | some s => trimStr s

/-- Source `clip(value, maxLength)`: clean, then truncate to at most
`maxLength` code points (the empty cleaned string is returned as is). -/
def clip (value : Str) (maxLength : Nat) : Str :=
  let text := trimStr value
  if text.isEmpty then []
  else if text.length > maxLength then text.take maxLength else text

/-- JavaScript truthiness of a string-or-absent value: `undefined`, `null` and
the empty string are falsy; every non-empty string is truthy. -/
def jsTruthy (v : Option Str) : Bool :=
  match v with
  | none => false
  | some s => !s.isEmpty

/-- JavaScript `a || b` on string-or-absent values. -/
def jsOr (a b : Option Str) : Option Str := if jsTruthy a then a else b

/-- An inbound header value: a plain string or an array of strings. -/
inductive HeaderVal where
  | str (s : Str)
  | arr (vs : List Str)
deriving DecidableEq, Repr

/-- Source `getHeader` body for one entry: arrays contribute their first
element (or the empty string), plain values are cleaned. -/
def headerValClean (v : HeaderVal) : Str :=
  match v with
  | .str s => trimStr s
  | .arr [] => []
  | .arr (x :: _) => trimStr x

/-- Source `getHeader(headers, headerName)`: first entry whose name matches
case-insensitively; its value cleaned; empty string when none matches. -/
def getHeader (headers : List (Str × HeaderVal)) (headerName : Str) : Str :=
  match headers with
  | [] => []
  | (k, v) :: rest =>
    if lowerStr k = lowerStr headerName then headerValClean v
    else getHeader rest headerName

/-- Source `isAuthorizedRequest(event, expectedSecret)`: fail closed when the
cleaned secret is empty, else compare the cleaned `x-webhook-secret` header
against the cleaned secret. `headers` is the header object the source reads
via `event?.request?.headers || event?.headers`. -/
def isAuthorizedRequest (headers : List (Str × HeaderVal)) (expectedSecret : Option Str) : Bool :=
  let secret := cleanString expectedSecret
  if secret.isEmpty then false
  else getHeader headers (sLit "x-webhook-secret") == secret

/-- Source constant `DEFAULT_SOURCE`. -/
def DEFAULT_SOURCE : Str := sLit "Gmail/Naukri"

/-- Source constant `DEFAULT_THRESHOLD`. -/
def DEFAULT_THRESHOLD : Int := 3

/-- Source constant `DEDUPE_TTL_SECONDS`. -/
def DEDUPE_TTL_SECONDS : Nat := 24 * 60 * 60

/-- Source constant `SEND_RETRY_DELAY_MS`. -/
def SEND_RETRY_DELAY_MS : Nat := 800

/-- The untyped inbound payload object: each field is a string or absent.
The source reads `event.payload` when it is an object, else the event itself;
this structure is that already-selected object. -/
structure RawPayload where
  email_id : Option Str := none
  emailId : Option Str := none
  message_id : Option Str := none
  subject : Option Str := none
  from_ : Option Str := none
  date : Option Str := none
  snippet : Option Str := none
  body : Option Str := none
  source : Option Str := none
deriving DecidableEq, Repr

/-- The normalized event produced by `parsePayload` (all fields strings). -/
structure InboundEvent where
  email_id : Str := []
  subject : Str := []
  from_ : Str := []
  date : Str := []
  snippet : Str := []
  body : Str := []
  source : Str := []
deriving DecidableEq, Repr

/-- Source `parsePayload`: identifier aliases resolved by JavaScript `||`
(truthiness of the raw values) before cleaning; every field cleaned;
`source` falls back to the default label when empty. -/
def parsePayload (raw : RawPayload) : InboundEvent :=
  { email_id := cleanString (jsOr raw.email_id (jsOr raw.emailId raw.message_id))
    subject := cleanString raw.subject
    from_ := cleanString raw.from_
    date := cleanString raw.date
    snippet := cleanString raw.snippet
    body := cleanString raw.body
    source :=
      let s := cleanString raw.source
      if s.isEmpty then DEFAULT_SOURCE else s }

/-- Decimal digit value of a code point. -/
def isDigit (c : Nat) : Bool := 48 ≤ c && c ≤ 57

/-- Longest leading run of decimal digits, as digit values. -/
def takeDigits (s : Str) : List Nat :=
  (s.takeWhile isDigit).map (fun c => c - 48)

/-- Natural number denoted by a digit-value list (most significant first). -/
def natOfDigits (ds : List Nat) : Nat :=
  ds.foldl (fun acc d => acc * 10 + d) 0

/-- JavaScript `Number.parseInt(raw, 10)`: `none` stands for NaN. Leading
whitespace is skipped, an optional sign is read, then the longest digit
prefix; no digits means NaN. An absent argument stringifies to
a digit-free word and also yields NaN. -/
def parseIntTen (raw : Option Str) : Option Int :=
  match raw with
  | none => none
  | some s =>
    let t := s.dropWhile isWS
    let signedTail : Bool × Str :=
      match t with
      | c :: rest => if c = 43 then (false, rest) else if c = 45 then (true, rest) else (false, t)
      | [] => (false, [])
    let ds := takeDigits signedTail.2
    if ds.isEmpty then none
    else some ((if signedTail.1 then (-1 : Int) else 1) * (natOfDigits ds : Int))

/-- Source `getDetectorThreshold(raw)`: default 3 when the parse is NaN or the
parsed value is ≤ 0, else the parsed integer. -/
def getDetectorThreshold (raw : Option Str) : Int :=
  match parseIntTen raw with
  | none => DEFAULT_THRESHOLD
  | some parsed => if parsed ≤ 0 then DEFAULT_THRESHOLD else parsed

/-- Source keyword table `KEYWORDS`, in order. -/
def KEYWORDS : List Str :=
  [ sLit "interview", sLit "shortlisted", sLit "schedule", sLit "assessment",
    sLit "recruiter", sLit "hr", sLit "selection process", sLit "invite",
    sLit "naukri", sLit "naukri.com", sLit "call", sLit "zoom",
    sLit "google meet", sLit "date", sLit "time" ]

/-- JavaScript `text.includes(pattern)`: substring occurrence. -/
def strIncludes (text pattern : Str) : Bool :=
  pattern.isPrefixOf text ||
    match text with
    | [] => false
    | _ :: rest => strIncludes rest pattern

/-- Result of `scorePayload`. -/
structure ScoreResult where
  score : Nat
  matched : List Str
deriving DecidableEq, Repr

/-- Source `scorePayload(payload)`: lower-case `subject snippet body`
(space-joined), then walk the keyword table, adding 1 to the score and
recording each keyword found in the text; the loop-with-push is rendered as a
filter, whose length is the score (the source increments exactly when it
pushes). -/
def scorePayload (p : InboundEvent) : ScoreResult :=
  let text := lowerStr (p.subject ++ [32] ++ p.snippet ++ [32] ++ p.body)
  let matched := KEYWORDS.filter (fun keyword => strIncludes text keyword)
  { score := matched.length, matched := matched }

/-- Hex digits of a natural number as code points (least step first recursion). -/
def hexDigits (n : Nat) : Str :=
  if n = 0 then []
  else
    let d := n % 16
    let c := if d < 10 then 48 + d else 87 + d
    hexDigits (n / 16) ++ [c]
decreasing_by exact Nat.div_lt_self (Nat.pos_of_ne_zero (by assumption)) (by omega)

/-- Modelled from the spec: `hashText` delegates to the external Node `crypto`
SHA-256 hex digest, an external collaborator outside this repository; it is
modelled as a deterministic digest-like function (a 64-bit rolling hash of the
code points, rendered in hex). The claims depend only on it being a function
of the input text. -/
def hashText (value : Str) : Str :=
  let h := value.foldl (fun acc c => (acc * 131 + c + 1) % (2 ^ 64)) 7
  hexDigits h

/-- Source `buildDedupeKey(payload)`: a truthy `email_id` yields
`email:<id>`; otherwise a `hash:` key over the lower-cased cleaned
`from|subject|date|excerpt` string, the excerpt being snippet-or-body clipped
to 200 characters. -/
def buildDedupeKey (p : InboundEvent) : Str :=
  if !p.email_id.isEmpty then sLit "email:" ++ p.email_id
  else
    let excerptForHash := clip (if p.snippet.isEmpty then p.body else p.snippet) 200
    let base :=
      (([p.from_, p.subject, p.date, excerptForHash].map
        (fun item => lowerStr (trimStr item))).intersperse (sLit "|")).flatten
    sLit "hash:" ++ hashText base

/-- Source `buildWhatsAppBody(payload)`: fixed template with placeholder
lines, newline-joined; excerpt is snippet-or-body clipped to 300. -/
def buildWhatsAppBody (p : InboundEvent) : Str :=
  let excerpt := clip (if p.snippet.isEmpty then p.body else p.snippet) 300
  let lines : List Str :=
    [ sLit "Naukri Invite" ++ [32, 0x2705]
    , sLit "Subject: " ++ (if p.subject.isEmpty then sLit "(no subject)" else p.subject)
    , sLit "From: " ++ (if p.from_.isEmpty then sLit "(unknown sender)" else p.from_)
    , sLit "Date: " ++ (if p.date.isEmpty then sLit "(unknown date)" else p.date)
    , sLit "Excerpt: " ++ (if excerpt.isEmpty then sLit "(no excerpt)" else excerpt) ]
  ((lines.intersperse [10]).flatten)

/-- A JavaScript error value as the webhook inspects it: an optional numeric
`status` and an optional numeric `statusCode` (absent or non-numeric fields
coerce to NaN, modelled as `none`). -/
structure JsError where
  status : Option Int := none
  statusCode : Option Int := none
deriving DecidableEq, Repr

/-- The numeric status `isTransientError` reads:
`Number(error?.status || error?.statusCode)` — a present, non-zero `status`
wins, else `statusCode`; `none` stands for NaN. -/
def reportedStatus (e : JsError) : Option Int :=
  match e.status with
  | some n => if n ≠ 0 then some n else e.statusCode
  | none => e.statusCode

/-- Source `isTransientError(error)`: status 429 or a 5xx status. -/
def isTransientError (e : JsError) : Bool :=
  match reportedStatus e with
  | some statusCode => statusCode == 429 || (500 ≤ statusCode && statusCode < 600)
  | none => false

/-- A delivered message, as the webhook uses it (its `sid`). -/
structure Msg where
  sid : Str := []
deriving DecidableEq, Repr

/-- Parameters of one `client.messages.create` call. -/
structure SendParams where
  from_ : Option Str := none
  to_ : Option Str := none
  body : Str := []
deriving DecidableEq, Repr

/-- The external message transport: the outcome of the first and of the
second `messages.create` call for given parameters. -/
structure Transport where
  first : SendParams → Except JsError Msg
  second : SendParams → Except JsError Msg

instance : DecidableEq (Except JsError Msg) := fun x y =>
  match x, y with
  | .ok a, .ok b =>
    if h : a = b then .isTrue (congrArg Except.ok h)
    else .isFalse (fun hc => h (Except.ok.inj hc))
  | .error a, .error b =>
    if h : a = b then .isTrue (congrArg Except.error h)
    else .isFalse (fun hc => h (Except.error.inj hc))
  | .ok _, .error _ => .isFalse (fun hc => Except.noConfusion hc)
  | .error _, .ok _ => .isFalse (fun hc => Except.noConfusion hc)

/-- Observable outcome of `sendWithRetry`: its result, how many transport
calls were made, and the sleeps performed (in ms). -/
structure SendOutcome where
  result : Except JsError Msg
  calls : Nat
  delays : List Nat
deriving DecidableEq, Repr

/-- Source `sendWithRetry(client, params)`: first call; on a transient
failure sleep `SEND_RETRY_DELAY_MS` and call once more (that outcome, success
or failure, is final); a non-transient failure is rethrown at once. -/
def sendWithRetry (tp : Transport) (params : SendParams) : SendOutcome :=
  match tp.first params with
  | .ok m => ⟨.ok m, 1, []⟩
  | .error e =>
    if isTransientError e then ⟨tp.second params, 2, [SEND_RETRY_DELAY_MS]⟩
    else ⟨.error e, 1, []⟩

/-- The external Sync document store (service resolution already done, as in
`resolveSyncServiceSid`): the outcome of fetching a key, and of creating a
record under a key with a TTL. -/
structure StoreBehavior where
  fetch : Str → Except JsError Unit
  create : Str → Nat → Except JsError Unit

/-- Source `markAsProcessedIfNew(client, context, dedupeKey)`: fetch the key —
found means not new; a fetch error other than 404 is rethrown; on 404, create
the record with the dedupe TTL — a 409 conflict means not new, any other
create error is rethrown, success means this caller owns the new event. -/
def markAsProcessedIfNew (store : StoreBehavior) (dedupeKey : Str) : Except JsError Bool :=
  match store.fetch dedupeKey with
  | .ok _ => .ok false
  | .error e =>
    if e.status ≠ some 404 then .error e
    else
      match store.create dedupeKey DEDUPE_TTL_SECONDS with
      | .ok _ => .ok true
      | .error e2 => if e2.status = some 409 then .ok false else .error e2

/-- The function's environment (`context`): each variable a string or unset. -/
structure Context where
  WEBHOOK_SECRET : Option Str := none
  DETECTOR_THRESHOLD : Option Str := none
  TWILIO_ACCOUNT_SID : Option Str := none
  TWILIO_AUTH_TOKEN : Option Str := none
  TWILIO_WHATSAPP_FROM : Option Str := none
  TWILIO_WHATSAPP_TO : Option Str := none
deriving DecidableEq, Repr

/-- Result of `assertSendConfig(context)`: which of the four delivery
variables are missing (clean to empty), and whether none is. -/
structure SendConfigState where
  ok : Bool
  missing : List Str
deriving DecidableEq, Repr

/-- Source `assertSendConfig(context)`. -/
def assertSendConfig (ctx : Context) : SendConfigState :=
  let requiredVars : List (Str × Option Str) :=
    [ (sLit "TWILIO_ACCOUNT_SID", ctx.TWILIO_ACCOUNT_SID)
    , (sLit "TWILIO_AUTH_TOKEN", ctx.TWILIO_AUTH_TOKEN)
    , (sLit "TWILIO_WHATSAPP_FROM", ctx.TWILIO_WHATSAPP_FROM)
    , (sLit "TWILIO_WHATSAPP_TO", ctx.TWILIO_WHATSAPP_TO) ]
  let missing := (requiredVars.filter (fun kv => (cleanString kv.2).isEmpty)).map (·.1)
  { ok := missing.isEmpty, missing := missing }

/-- The JSON body of a handler response. -/
inductive RespBody where
  | unauthorized
  | ignored (score : Nat)
  | deduped
  | sent (sid : Str)
  | missingEnv
  | internalError
deriving DecidableEq, Repr

/-- A handler response: status code plus JSON body. -/
structure Response where
  statusCode : Nat
  body : RespBody
deriving DecidableEq, Repr

/-- The inbound event as the handler reads it: its headers and the payload
object (`event.payload` when that is an object, else the event itself). -/
structure JsEvent where
  headers : List (Str × HeaderVal) := []
  payload : RawPayload := {}
deriving DecidableEq, Repr

/-- Source `handler(context, event, callback)`: authenticate, normalize,
score against the threshold, check delivery configuration, dedupe, send with
retry; errors escaping any step surface as 500 `internal_error` through the
top-level catch. -/
def handler (ctx : Context) (ev : JsEvent) (store : StoreBehavior) (tp : Transport) : Response :=
  if !isAuthorizedRequest ev.headers ctx.WEBHOOK_SECRET then ⟨401, .unauthorized⟩
  else
    let payload := parsePayload ev.payload
    let threshold := getDetectorThreshold ctx.DETECTOR_THRESHOLD
    let score := (scorePayload payload).score
    if (score : Int) < threshold then ⟨200, .ignored score⟩
    else
      let configState := assertSendConfig ctx
      if !configState.ok then ⟨500, .missingEnv⟩
      else
        let dedupeKey := buildDedupeKey payload
        match markAsProcessedIfNew store dedupeKey with
        | .error _ => ⟨500, .internalError⟩
        | .ok false => ⟨200, .deduped⟩
        | .ok true =>
          let params : SendParams :=
            { from_ := ctx.TWILIO_WHATSAPP_FROM
              to_ := ctx.TWILIO_WHATSAPP_TO
              body := buildWhatsAppBody payload }
          match (sendWithRetry tp params).result with
          | .error _ => ⟨500, .internalError⟩
          | .ok m => ⟨200, .sent m.sid⟩

/-- Case-insensitive header lookup returning the raw (uncleaned) value, as
the claim's wording of the authenticator reads it. -/
def rawHeaderLookup (headers : List (Str × HeaderVal)) (headerName : Str) : Option HeaderVal :=
  match headers with
  | [] => none
  | (k, v) :: rest =>
    if lowerStr k = lowerStr headerName then some v
    else rawHeaderLookup rest headerName

/-- The authenticator as the claim words it, for comparison with
`isAuthorizedRequest`: an unset or empty secret always fails; otherwise the
secret header is looked up case-insensitively by name and the request is
authorized exactly when the provided header value equals the configured
secret by exact string match (no trimming). -/
def claimAuthorized (headers : List (Str × HeaderVal)) (expectedSecret : Option Str) : Bool :=
  match expectedSecret with
  | none => false
  | some secret =>
    if secret.isEmpty then false
    else
      match rawHeaderLookup headers (sLit "x-webhook-secret") with
      | some (.str v) => v == secret
      | some (.arr (v :: _)) => v == secret
      | _ => false

/-- Sample payload of the detector unit test (subject, snippet and body of
the documented scoring example). -/
def samplePayload : InboundEvent :=
  { subject := sLit "Interview invite from recruiter on Naukri"
    snippet := sLit "Please schedule a zoom call and selection process discussion"
    body := sLit "HR shared date and time for assessment" }

/-- Headers carrying the webhook secret without surrounding whitespace, under
a differently-cased header name. -/
def headersPlain : List (Str × HeaderVal) := [(sLit "X-Webhook-Secret", .str (sLit "s"))]

/-- An authorized event whose payload scores exactly 3 (the default
threshold): keywords interview, schedule, assessment. -/
def evAbove : JsEvent :=
  { headers := [(sLit "x-webhook-secret", .str (sLit "s"))]
    payload := { subject := some (sLit "interview schedule assessment") } }

/-- An authorized event whose payload scores 0. -/
def evLow : JsEvent :=
  { headers := [(sLit "x-webhook-secret", .str (sLit "s"))]
    payload := { subject := some (sLit "hello world") } }

/-- Context with the webhook secret but none of the delivery variables. -/
def ctxNoCreds : Context := { WEBHOOK_SECRET := some (sLit "s") }

/-- Context with the webhook secret and all four delivery variables. -/
def ctxCreds : Context :=
  { WEBHOOK_SECRET := some (sLit "s")
    TWILIO_ACCOUNT_SID := some (sLit "AC1")
    TWILIO_AUTH_TOKEN := some (sLit "tok")
    TWILIO_WHATSAPP_FROM := some (sLit "whatsapp:+10000000001")
    TWILIO_WHATSAPP_TO := some (sLit "whatsapp:+10000000002") }

/-- A 404 (not found) store error. -/
def err404 : JsError := { status := some 404 }

/-- A 409 (conflict) store error. -/
def err409 : JsError := { status := some 409 }

/-- A 503 transport error. -/
def err503 : JsError := { status := some 503 }

/-- Store in which every fetch finds an existing record. -/
def storeFound : StoreBehavior := { fetch := fun _ => .ok (), create := fun _ _ => .ok () }

/-- Store in which no record exists and creation succeeds. -/
def storeNew : StoreBehavior := { fetch := fun _ => .error err404, create := fun _ _ => .ok () }

/-- Transport that succeeds on every call. -/
def tpOk : Transport :=
  { first := fun _ => .ok { sid := sLit "SM1" }, second := fun _ => .ok { sid := sLit "SM2" } }

/-- Transport that fails once with a 503 and then succeeds. -/
def tpFlaky : Transport :=
  { first := fun _ => .error err503, second := fun _ => .ok { sid := sLit "SM2" } }

/-- Dedupe-key witness payload with an identifier (from the repo's unit
test) and unrelated fields set. -/
def pEmail : InboundEvent :=
  { email_id := sLit "18f9f4f2", from_ := sLit "noreply@naukri.com"
    subject := sLit "Interview", date := sLit "2026-01-01" }

/-- Same identifier, different other fields. -/
def qEmail : InboundEvent := { email_id := sLit "18f9f4f2", subject := sLit "Other" }

/-- Hash-key witness payload, lower-cased fields, no identifier. -/
def pLower : InboundEvent :=
  { from_ := sLit "hr@company.com", subject := sLit "Shortlisted"
    date := sLit "Sun, 01 Jan 2026 10:00:00 +0530"
    snippet := sLit "Invite for zoom call and assessment" }

/-- The same payload with the casing of every field changed. -/
def pUpper : InboundEvent :=
  { from_ := sLit "HR@Company.COM", subject := sLit "sHORTLISTED"
    date := sLit "SUN, 01 jan 2026 10:00:00 +0530"
    snippet := sLit "INVITE FOR ZOOM CALL AND ASSESSMENT" }

/-- Raw payload whose `email_id` is whitespace-only while `emailId` carries a
real identifier. -/
def rawWS : RawPayload := { email_id := some (sLit " "), emailId := some (sLit "abc123") }

/-- Raw payload whose `email_id` is the empty string while `message_id`
carries a real identifier. -/
def rawEmptyId : RawPayload := { email_id := some [], message_id := some (sLit "m-7") }

/-! Helper lemmas about the text primitives. -/

theorem isWS_lowerChar (c : Nat) : isWS (lowerChar c) = isWS c := by
  unfold isWS lowerChar
  rcases Decidable.em (65 ≤ c ∧ c ≤ 90) with h | h
  · rw [if_pos h]
    rw [Bool.eq_iff_iff]
    simp only [Bool.or_eq_true, beq_iff_eq]
    omega
  · rw [if_neg h]

theorem lowerStr_dropWhile (s : Str) :
    lowerStr (s.dropWhile isWS) = (lowerStr s).dropWhile isWS := by
  unfold lowerStr
  have hp : (isWS ∘ lowerChar) = isWS := funext fun c => isWS_lowerChar c
  rw [List.dropWhile_map, hp]

theorem lowerStr_reverse (s : Str) : lowerStr s.reverse = (lowerStr s).reverse :=
  List.map_reverse lowerChar s

theorem lowerStr_trimStr (s : Str) : lowerStr (trimStr s) = trimStr (lowerStr s) := by
  unfold trimStr
  rw [lowerStr_reverse, lowerStr_dropWhile, lowerStr_reverse, lowerStr_dropWhile]

theorem lowerStr_eq_nil {s : Str} : lowerStr s = [] ↔ s = [] := by
  simp [lowerStr]

theorem lowerStr_clip (s : Str) (n : Nat) :
    lowerStr (clip s n) = (trimStr (lowerStr s)).take n := by
  rw [← lowerStr_trimStr]
  unfold clip
  by_cases h : trimStr s = []
  · simp [h, lowerStr]
  · have hne : (trimStr s).isEmpty = false := by simp [h]
    simp only [hne, Bool.false_eq_true, if_false]
    by_cases hlen : (trimStr s).length > n
    · simp [hlen, lowerStr]
    · rw [if_neg hlen, List.take_of_length_le]
      simp only [lowerStr, List.length_map]
      omega

theorem trimStr_eq_nil_of_ws {s : Str} (h : ∀ c ∈ s, isWS c = true) : trimStr s = [] := by
  unfold trimStr
  have h1 : s.dropWhile isWS = [] := List.dropWhile_eq_nil_iff.mpr h
  simp [h1]

/-! Theorems settling the claims. -/

/-- C7: getDetectorThreshold returns 3 when its input is unset, non-numeric
(the parse is NaN), or parses to a value ≤ 0, and returns the parsed integer
otherwise; in particular undefined → 3, "abc" → 3, "0" → 3, "5" → 5. -/
theorem C7_threshold_default :
    getDetectorThreshold none = 3 ∧
    getDetectorThreshold (some (sLit "abc")) = 3 ∧
    getDetectorThreshold (some (sLit "0")) = 3 ∧
    getDetectorThreshold (some (sLit "5")) = 5 ∧
    (∀ raw : Option Str, parseIntTen raw = none → getDetectorThreshold raw = 3) ∧
    (∀ (raw : Option Str) (n : Int), parseIntTen raw = some n →
      getDetectorThreshold raw = if n ≤ 0 then 3 else n) := by
  refine ⟨by decide, by decide, by decide, by decide, ?_, ?_⟩
  · intro raw h
    unfold getDetectorThreshold
    rw [h]
    rfl
  · intro raw n h
    unfold getDetectorThreshold
    rw [h]
    rfl

/-- Witness for C7: a fresh non-numeric input yields the default and a fresh
numeric input yields its parsed value. -/
theorem C7_threshold_default_witness :
    getDetectorThreshold (some (sLit "x9")) = 3 ∧
    getDetectorThreshold (some (sLit " 42 ")) = 42 := by
  constructor
  · exact C7_threshold_default.2.2.2.2.1 (some (sLit "x9")) (by decide)
  · have h := C7_threshold_default.2.2.2.2.2 (some (sLit " 42 ")) 42 (by decide)
    rw [if_neg (by decide)] at h
    exact h

/-- C8: scorePayload on the documented example payload yields score ≥ 8 and
its matched list contains interview, zoom and assessment. -/
theorem C8_sample_score :
    8 ≤ (scorePayload samplePayload).score ∧
    sLit "interview" ∈ (scorePayload samplePayload).matched ∧
    sLit "zoom" ∈ (scorePayload samplePayload).matched ∧
    sLit "assessment" ∈ (scorePayload samplePayload).matched := by
  decide

/-- C9: for every payload the matched list is a duplicate-free sublist of the
keyword table (each keyword at most once, in table order), the score equals
its length, and so the score never exceeds the table size, 15. -/
theorem C9_matched_invariants (p : InboundEvent) :
    (scorePayload p).matched.Sublist KEYWORDS ∧
    (scorePayload p).matched.Nodup ∧
    (scorePayload p).score = (scorePayload p).matched.length ∧
    (scorePayload p).score ≤ KEYWORDS.length ∧
    KEYWORDS.length = 15 := by
  have hsub : (scorePayload p).matched.Sublist KEYWORDS := List.filter_sublist _
  have hnodup : KEYWORDS.Nodup := by decide
  exact ⟨hsub, hsub.nodup hnodup, rfl, hsub.length_le, by decide⟩

/-- C10: the identifier-alias precedence is decided by truthiness before
trimming: a falsy email_id defers to the later aliases, while a
whitespace-only email_id wins the precedence yet normalizes to the empty
string, leaving the event with no identifier even when emailId or message_id
carried one. -/
theorem C10_alias_precedence (raw : RawPayload) :
    (jsTruthy raw.email_id = false →
      (parsePayload raw).email_id = cleanString (jsOr raw.emailId raw.message_id)) ∧
    (∀ s : Str, raw.email_id = some s → s ≠ [] → (∀ c ∈ s, isWS c = true) →
      (parsePayload raw).email_id = []) := by
  constructor
  · intro h
    unfold parsePayload
    simp only [jsOr, h, Bool.false_eq_true, if_false]
  · intro s hs hne hws
    have ht : jsTruthy (some s) = true := by
      unfold jsTruthy
      simp [hne]
    unfold parsePayload
    simp only [jsOr, hs, ht, if_true]
    simp [cleanString, trimStr_eq_nil_of_ws hws]

/-- Witness for C10: a whitespace-only email_id erases the identifier even
though emailId carries one, and an empty email_id defers to message_id. -/
theorem C10_alias_precedence_witness :
    (parsePayload rawWS).email_id = [] ∧
    (parsePayload rawEmptyId).email_id = cleanString (jsOr rawEmptyId.emailId rawEmptyId.message_id) := by
  constructor
  · exact (C10_alias_precedence rawWS).2 (sLit " ") rfl (by decide) (by decide)
  · exact (C10_alias_precedence rawEmptyId).1 (by decide)

/-- C5: buildDedupeKey is deterministic — identical field content yields the
same key, whatever the object identity — and whenever email_id is present
(non-empty) the key is exactly "email:" ++ email_id, independent of the
values of all other fields. -/
theorem C5_dedupe_key_email (p q : InboundEvent) :
    ((p.email_id = q.email_id ∧ p.subject = q.subject ∧ p.from_ = q.from_ ∧
      p.date = q.date ∧ p.snippet = q.snippet ∧ p.body = q.body ∧ p.source = q.source) →
      buildDedupeKey p = buildDedupeKey q) ∧
    (p.email_id ≠ [] → buildDedupeKey p = sLit "email:" ++ p.email_id) := by
  constructor
  · rintro ⟨h1, h2, h3, h4, h5, h6, h7⟩
    have hpq : p = q := by
      cases p
      cases q
      simp_all
    rw [hpq]
  · intro h
    unfold buildDedupeKey
    simp [List.isEmpty_eq_true, h]

/-- Witness for C5: the repo's unit-test identifier payload gets the
"email:"-prefixed key, and two payloads with the same content share it. -/
theorem C5_dedupe_key_email_witness :
    buildDedupeKey pEmail = sLit "email:" ++ pEmail.email_id ∧
    buildDedupeKey pEmail = buildDedupeKey pEmail := by
  constructor
  · exact (C5_dedupe_key_email pEmail qEmail).2 (by decide)
  · exact (C5_dedupe_key_email pEmail pEmail).1
      ⟨rfl, rfl, rfl, rfl, rfl, rfl, rfl⟩

/-- C4 as stated is false at a concrete input: with configured secret " s "
(set and non-empty) and provided header value "s", exact string match fails,
yet the code trims both sides and authorizes the request. -/
theorem C4_counterexample :
    isAuthorizedRequest headersPlain (some (sLit " s ")) = true ∧
    claimAuthorized headersPlain (some (sLit " s ")) = false ∧
    (sLit " s ").isEmpty = false := by
  decide

/-- C4 amended: the configured secret and the provided header value are each
trimmed of surrounding whitespace before use; a secret that cleans to empty
(unset, empty, or whitespace-only) fails closed regardless of the headers;
otherwise the secret header is looked up case-insensitively by name and the
request is authorized exactly when the trimmed header value equals the
trimmed secret. -/
theorem C4_auth_trimmed (headers : List (Str × HeaderVal)) (expectedSecret : Option Str) :
    (cleanString expectedSecret = [] → isAuthorizedRequest headers expectedSecret = false) ∧
    (cleanString expectedSecret ≠ [] →
      (isAuthorizedRequest headers expectedSecret = true ↔
        getHeader headers (sLit "x-webhook-secret") = cleanString expectedSecret)) := by
  constructor
  · intro h
    unfold isAuthorizedRequest
    simp [h]
  · intro h
    unfold isAuthorizedRequest
    simp [List.isEmpty_eq_true, h]

/-- Witness for C4 amended: a padded header value under a differently-cased
header name authorizes against the matching trimmed secret. -/
theorem C4_auth_trimmed_witness :
    isAuthorizedRequest [(sLit "X-WEBHOOK-SECRET", .str (sLit " tok "))] (some (sLit "tok")) = true := by
  have h := (C4_auth_trimmed [(sLit "X-WEBHOOK-SECRET", .str (sLit " tok "))]
    (some (sLit "tok"))).2 (by decide)
  exact h.mpr (by decide)

/-- C2: the dedupe test-and-set — a found record means not new; a fetch error
other than 404 propagates; on a 404 a record is created with the 24-hour
TTL; a 409 conflict on create means not new; any other create error
propagates; create success means this caller owns the new-event outcome. -/
theorem C2_mark_if_new (store : StoreBehavior) (key : Str) :
    DEDUPE_TTL_SECONDS = 24 * 60 * 60 ∧
    (store.fetch key = .ok () → markAsProcessedIfNew store key = .ok false) ∧
    (∀ e : JsError, store.fetch key = .error e → e.status ≠ some 404 →
      markAsProcessedIfNew store key = .error e) ∧
    (∀ e : JsError, store.fetch key = .error e → e.status = some 404 →
      store.create key DEDUPE_TTL_SECONDS = .ok () →
      markAsProcessedIfNew store key = .ok true) ∧
    (∀ e e2 : JsError, store.fetch key = .error e → e.status = some 404 →
      store.create key DEDUPE_TTL_SECONDS = .error e2 →
      ((e2.status = some 409 → markAsProcessedIfNew store key = .ok false) ∧
       (e2.status ≠ some 409 → markAsProcessedIfNew store key = .error e2))) := by
  refine ⟨rfl, ?_, ?_, ?_, ?_⟩
  · intro hf
    unfold markAsProcessedIfNew
    rw [hf]
  · intro e hf hst
    unfold markAsProcessedIfNew
    rw [hf]
    simp [hst]
  · intro e hf hst hc
    unfold markAsProcessedIfNew
    rw [hf]
    simp [hst, hc]
  · intro e e2 hf hst hc
    constructor
    · intro h9
      unfold markAsProcessedIfNew
      rw [hf]
      simp [hst, hc, h9]
    · intro h9
      unfold markAsProcessedIfNew
      rw [hf]
      simp [hst, hc, h9]

/-- Witness for C2: a fresh key is created (new-event ownership) and a found
key reports not-new. -/
theorem C2_mark_if_new_witness :
    markAsProcessedIfNew storeNew (sLit "email:18f9f4f2") = .ok true ∧
    markAsProcessedIfNew storeFound (sLit "email:18f9f4f2") = .ok false := by
  constructor
  · exact (C2_mark_if_new storeNew (sLit "email:18f9f4f2")).2.2.2.1 err404 rfl rfl rfl
  · exact (C2_mark_if_new storeFound (sLit "email:18f9f4f2")).2.1 rfl

/-- C3: a failure is classified transient exactly when the reported status is
429 or lies in [500, 600); a transient first failure waits the fixed 800 ms
delay and the transport is called exactly once more, whose outcome (success
or failure) is final; a non-transient first failure propagates after a single
call; the transport is invoked at most twice. -/
theorem C3_send_retry (tp : Transport) (params : SendParams) :
    SEND_RETRY_DELAY_MS = 800 ∧
    (∀ e : JsError, isTransientError e = true ↔
      (∃ n : Int, reportedStatus e = some n ∧ (n = 429 ∨ (500 ≤ n ∧ n < 600)))) ∧
    (∀ m : Msg, tp.first params = .ok m →
      sendWithRetry tp params = ⟨.ok m, 1, []⟩) ∧
    (∀ e : JsError, tp.first params = .error e → isTransientError e = true →
      sendWithRetry tp params = ⟨tp.second params, 2, [SEND_RETRY_DELAY_MS]⟩) ∧
    (∀ e : JsError, tp.first params = .error e → isTransientError e = false →
      sendWithRetry tp params = ⟨.error e, 1, []⟩) ∧
    (sendWithRetry tp params).calls ≤ 2 := by
  refine ⟨rfl, ?_, ?_, ?_, ?_, ?_⟩
  · intro e
    unfold isTransientError
    cases hr : reportedStatus e with
    | none => simp
    | some n =>
      simp only [Option.some.injEq]
      constructor
      · intro h
        refine ⟨n, rfl, ?_⟩
        simp only [Bool.or_eq_true, Bool.and_eq_true, beq_iff_eq, decide_eq_true_eq] at h
        omega
      · rintro ⟨m, hm, hcase⟩
        subst hm
        simp only [Bool.or_eq_true, Bool.and_eq_true, beq_iff_eq, decide_eq_true_eq]
        omega
  · intro m hf
    unfold sendWithRetry
    rw [hf]
  · intro e hf ht
    unfold sendWithRetry
    rw [hf]
    simp [ht]
  · intro e hf ht
    unfold sendWithRetry
    rw [hf]
    simp [ht]
  · unfold sendWithRetry
    cases hf : tp.first params with
    | ok m => simp
    | error e =>
      by_cases ht : isTransientError e = true
      · simp [ht]
      · simp [ht]

/-- Witness for C3: a 503 first failure is retried once after the fixed
delay and then succeeds; a first-call success makes exactly one call. -/
theorem C3_send_retry_witness :
    sendWithRetry tpFlaky { body := sLit "b" } =
      ⟨.ok { sid := sLit "SM2" }, 2, [SEND_RETRY_DELAY_MS]⟩ ∧
    sendWithRetry tpOk { body := sLit "b" } = ⟨.ok { sid := sLit "SM1" }, 1, []⟩ := by
  constructor
  · exact (C3_send_retry tpFlaky { body := sLit "b" }).2.2.2.1 err503 rfl (by decide)
  · exact (C3_send_retry tpOk { body := sLit "b" }).2.2.1 { sid := sLit "SM1" } rfl

/-- C6: for payloads without an email_id that differ only in the letter
casing of their from, subject, date, and excerpt-source (snippet and body)
fields, buildDedupeKey produces the same "hash:"-prefixed key — the content
hash is case-insensitive. -/
theorem C6_hash_case_insensitive (p q : InboundEvent)
    (hp : p.email_id = []) (hq : q.email_id = [])
    (hf : lowerStr p.from_ = lowerStr q.from_)
    (hs : lowerStr p.subject = lowerStr q.subject)
    (hd : lowerStr p.date = lowerStr q.date)
    (hsn : lowerStr p.snippet = lowerStr q.snippet)
    (hb : lowerStr p.body = lowerStr q.body) :
    buildDedupeKey p = buildDedupeKey q ∧
    (buildDedupeKey p).take 5 = sLit "hash:" := by
  have comp : ∀ x y : Str, lowerStr x = lowerStr y →
      lowerStr (trimStr x) = lowerStr (trimStr y) := by
    intro x y h
    rw [lowerStr_trimStr, lowerStr_trimStr, h]
  have hexcSrc : lowerStr (if p.snippet.isEmpty then p.body else p.snippet) =
      lowerStr (if q.snippet.isEmpty then q.body else q.snippet) := by
    by_cases h1 : p.snippet = []
    · have h2 : q.snippet = [] := lowerStr_eq_nil.mp (by rw [← hsn, h1]; rfl)
      simp [h1, h2, hb]
    · have h2 : q.snippet ≠ [] := fun hc => h1 (lowerStr_eq_nil.mp (by rw [hsn, hc]; rfl))
      simp [List.isEmpty_eq_true, h1, h2, hsn]
  have hexc : lowerStr (trimStr (clip (if p.snippet.isEmpty then p.body else p.snippet) 200)) =
      lowerStr (trimStr (clip (if q.snippet.isEmpty then q.body else q.snippet) 200)) := by
    rw [lowerStr_trimStr, lowerStr_trimStr, lowerStr_clip, lowerStr_clip, hexcSrc]
  constructor
  · unfold buildDedupeKey
    rw [hp, hq]
    simp only [List.isEmpty_nil, Bool.not_true, Bool.false_eq_true, if_false,
      List.map_cons, List.map_nil]
    rw [comp _ _ hf, comp _ _ hs, comp _ _ hd, hexc]
  · unfold buildDedupeKey
    rw [hp]
    simp only [List.isEmpty_nil, Bool.not_true, Bool.false_eq_true, if_false]
    exact List.take_left' (by decide)

/-- Witness for C6: the unit-test hash payload and its re-cased variant get
the same "hash:"-prefixed key. -/
theorem C6_hash_case_insensitive_witness :
    buildDedupeKey pLower = buildDedupeKey pUpper ∧
    (buildDedupeKey pLower).take 5 = sLit "hash:" :=
  C6_hash_case_insensitive pLower pUpper rfl rfl (by decide) (by decide) (by decide)
    (by decide) (by decide)

/-- C1 as stated is false at a concrete request: the configuration check
runs before deduplication, so the same authorized, above-threshold request
that is answered 200 deduped when the delivery credentials are present is
answered 500 missing_env when they are absent — the deduped response is not
independent of the delivery configuration. -/
theorem C1_counterexample :
    handler ctxNoCreds evAbove storeFound tpOk = ⟨500, .missingEnv⟩ ∧
    handler ctxCreds evAbove storeFound tpOk = ⟨200, .deduped⟩ := by
  decide

/-- C1 amended: for every authorized request, missing delivery configuration
is detected only after the score clears the threshold — a below-threshold
request is answered 200 ignored regardless of the credentials — but the
check precedes deduplication, so an above-threshold request with incomplete
configuration is answered 500 missing_env even when its key is already in
the store, and 200 deduped only when the configuration is complete and the
store reports the key as already processed. -/
theorem C1_config_after_threshold (ctx : Context) (ev : JsEvent)
    (store : StoreBehavior) (tp : Transport)
    (hauth : isAuthorizedRequest ev.headers ctx.WEBHOOK_SECRET = true) :
    (((scorePayload (parsePayload ev.payload)).score : Int) <
        getDetectorThreshold ctx.DETECTOR_THRESHOLD →
      handler ctx ev store tp =
        ⟨200, .ignored (scorePayload (parsePayload ev.payload)).score⟩) ∧
    (¬ (((scorePayload (parsePayload ev.payload)).score : Int) <
        getDetectorThreshold ctx.DETECTOR_THRESHOLD) →
      (assertSendConfig ctx).ok = false →
      handler ctx ev store tp = ⟨500, .missingEnv⟩) ∧
    (¬ (((scorePayload (parsePayload ev.payload)).score : Int) <
        getDetectorThreshold ctx.DETECTOR_THRESHOLD) →
      (assertSendConfig ctx).ok = true →
      markAsProcessedIfNew store (buildDedupeKey (parsePayload ev.payload)) = .ok false →
      handler ctx ev store tp = ⟨200, .deduped⟩) := by
  refine ⟨?_, ?_, ?_⟩
  · intro hlt
    unfold handler
    rw [hauth]
    simp [hlt]
  · intro hge hcfg
    unfold handler
    rw [hauth]
    simp [hge, hcfg]
  · intro hge hcfg hdup
    unfold handler
    rw [hauth]
    simp [hge, hcfg, hdup]

/-- Witness for C1 amended: an authorized below-threshold request is ignored
despite missing credentials, and an authorized above-threshold duplicate is
deduped once the credentials are present. -/
theorem C1_config_after_threshold_witness :
    handler ctxNoCreds evLow storeFound tpOk = ⟨200, .ignored 0⟩ ∧
    handler ctxCreds evAbove storeFound tpOk = ⟨200, .deduped⟩ := by
  constructor
  · exact (C1_config_after_threshold ctxNoCreds evLow storeFound tpOk (by decide)).1 (by decide)
  · exact (C1_config_after_threshold ctxCreds evAbove storeFound tpOk (by decide)).2.2
      (by decide) (by decide) rfl

end NotifyWebhook
